import Mathlib

/-!
# Tegra HDA platform driver: lifecycle and power management

A shallow embedding of `sound/pci/hda/hda_tegra.c` (kernel 5.10, NVIDIA Jetson
tree).  The driver handle is a record, every driver entry point is a function
from the handle to a return code and a new handle, and every call that leaves
the driver (register access, clock framework, runtime PM core, work queue,
generic HDA controller code) is appended to a trace kept in the handle, so that
ordering properties can be stated on the code as it is written.
-/

namespace HdaTegra

/-! ## Constants of the source file -/

def HDA_BAR0 : Nat := 0x8000
def HDA_DFPCI_CFG : Nat := 0x1000
def HDA_CFG_CMD : Nat := 0x1004
def HDA_CFG_BAR0 : Nat := 0x1010
def HDA_ENABLE_IO_SPACE : Nat := 1 <<< 0
def HDA_ENABLE_MEM_SPACE : Nat := 1 <<< 1
def HDA_ENABLE_BUS_MASTER : Nat := 1 <<< 2
def HDA_ENABLE_SERR : Nat := 1 <<< 8
def HDA_DISABLE_INTR : Nat := 1 <<< 10
def HDA_BAR0_INIT_PROGRAM : Nat := 0xFFFFFFFF
def HDA_BAR0_FINAL_PROGRAM : Nat := 1 <<< 14
def HDA_IPFS_CONFIG : Nat := 0x180
def HDA_IPFS_EN_FPCI : Nat := 0x1
def HDA_IPFS_FPCI_BAR0 : Nat := 0x80
def HDA_FPCI_BAR0_START : Nat := 0x40
def HDA_IPFS_INTR_MASK : Nat := 0x188
def HDA_IPFS_EN_INTR : Nat := 1 <<< 16
def FPCI_DBG_CFG_2 : Nat := 0x10F4
def FPCI_GCAP_NSDO_SHIFT : Nat := 18
def FPCI_GCAP_NSDO_MASK : Nat := 0x3 <<< FPCI_GCAP_NSDO_SHIFT
def NUM_CAPTURE_SD : Nat := 1
def NUM_PLAYBACK_SD : Nat := 1
def HDA_GSC_REG : Nat := 0x1e0
def HDA_GSC_ID : Nat := 10
def TEGRA194_NUM_SDO_LINES : Nat := 4
/-- JACKPOLL_INTERVAL, kept in milliseconds. -/
def JACKPOLL_INTERVAL : Nat := 5000

/-! ## Constants the file takes from kernel headers -/

/-- Offset of the global capabilities word register (sound/hda_register.h). -/
def AZX_REG_GCAP : Nat := 0x00
/-- Offset of the wake-enable word register (sound/hda_register.h). -/
def AZX_REG_WAKEEN : Nat := 0x0c
/-- STATESTS_INT_MASK of sound/hda_register.h: one bit per codec slot, eight
slots (HDA_MAX_CODECS). -/
def STATESTS_INT_MASK : Nat := (1 <<< 8) - 1
/-- Chip id of Tegra194 (soc/tegra/fuse.h). -/
def TEGRA194 : Nat := 0x19
/-- Chip id of Tegra234 (soc/tegra/fuse.h). -/
def TEGRA234 : Nat := 0x23
/-- Driver capability bits of hda_controller.h. -/
def AZX_DCAPS_4K_BDLE_BOUNDARY : Nat := 1 <<< 23
def AZX_DCAPS_PM_RUNTIME : Nat := 1 <<< 26
def AZX_DCAPS_CORBRP_SELF_CLEAR : Nat := 1 <<< 28
/-- Sizes of the name buffers of struct snd_card (sound/core.h). -/
def SIZEOF_CARD_DRIVER : Nat := 16
def SIZEOF_CARD_SHORTNAME : Nat := 32
def SIZEOF_CARD_LONGNAME : Nat := 80
/-- Size in bytes of a pointer on the 64-bit targets of this tree. -/
def SIZEOF_POINTER : Nat := 8
def ENOMEM : Int := 12
def ENODEV : Int := 19
def EINVAL : Int := 22
/-- Width of a 32-bit register. -/
def U32 : Nat := 2 ^ 32
/-- Width of a 16-bit register. -/
def U16 : Nat := 2 ^ 16

/-! ## Data model -/

/-- Power state recorded on the sound card by snd_power_change_state. -/
inductive power_state where
  | D0
  | D3hot
  deriving DecidableEq, Repr

/-- One call that leaves the driver.  The trace of a handle lists them in
program order. -/
inductive Event where
  | readl (off : Nat)
  | writel (val : Nat) (off : Nat)
  | azx_readw (reg : Nat)
  | azx_writew (reg : Nat) (val : Nat)
  | clk_bulk_prepare_enable
  | clk_bulk_disable_unprepare
  | azx_init_chip
  | azx_stop_chip
  | azx_enter_link_reset
  | azx_stop_all_streams
  | azx_free_stream_pages
  | azx_free_streams
  | snd_hdac_bus_exit
  | azx_init_streams
  | azx_alloc_stream_pages
  | devm_request_irq (irq : Int)
  | azx_probe_codecs
  | azx_codec_configure
  | snd_card_register
  | snd_hda_set_power_save (ms : Int)
  | hda_tegra_create_sysfs
  | hda_tegra_remove_sysfs
  | pm_runtime_get_sync
  | pm_runtime_put
  | pm_runtime_enable
  | pm_runtime_forbid
  | pm_runtime_disable
  | pm_runtime_force_suspend
  | pm_runtime_force_resume
  | schedule_work_probe
  | cancel_work_sync_probe
  | schedule_delayed_work_jack (delay : Nat)
  | cancel_delayed_work_sync_jack
  | snd_power_change_state (st : power_state)
  | snd_hda_power_up_pm (codec : Nat)
  | snd_hda_jack_set_dirty_all (codec : Nat)
  | snd_hda_jack_poll_all (codec : Nat)
  | snd_hda_power_down_pm (codec : Nat)
  | snd_card_free
  | dev_err
  deriving DecidableEq, Repr

/-- A codec on the bus, as far as this file looks at it: its address and what
snd_hdac_is_power_on answers for it. -/
structure hda_codec where
  addr : Nat
  power_on : Bool
  deriving DecidableEq, Repr

/-- One entry of the clock array: the clock name and whether the clock is
currently enabled (the bit the spec calls the enabled pattern). -/
structure clk_bulk_data where
  id : String
  enabled : Bool
  deriving DecidableEq, Repr

/-- The fields of struct hdac_bus that the file reads or writes. -/
structure hdac_bus where
  chip_init : Bool
  codec_mask : Nat
  irq : Int
  dma_stop_delay : Nat
  sdo_limit : Nat
  shutdown : Bool
  sync_write : Bool
  needs_damn_long_delay : Bool
  aligned_mmio : Bool
  remap_addr : Nat
  addr : Nat
  codecs : List hda_codec
  deriving DecidableEq, Repr

/-- The fields of struct snd_card that the file reads or writes. -/
structure snd_card where
  driver : String
  shortname : String
  longname : String
  sync_irq : Int
  power : power_state
  deriving DecidableEq, Repr

/-- The fields of struct azx that the file reads or writes. -/
structure azx where
  running : Bool
  capture_streams : Nat
  playback_streams : Nat
  capture_index_offset : Nat
  playback_index_offset : Nat
  num_streams : Nat
  align_buffer_size : Bool
  driver_caps : Nat
  driver_type : Nat
  bus : hdac_bus
  card : snd_card
  deriving DecidableEq, Repr

/-- The driver handle, struct hda_tegra, together with the state of the two
work items embedded in it, the power references taken on its device, and the
trace of calls made so far.  The register region is a store: a read returns
the value last written to the offset. -/
structure hda_tegra where
  chip : azx
  clocks : List clk_bulk_data
  /-- Byte size requested from devm_kzalloc for the clock array. -/
  clocks_alloc : Nat
  nclocks : Nat
  regs : Nat → Nat
  regs_mapped : Bool
  probe_work_pending : Bool
  jack_work_pending : Bool
  pm_usage : Int
  trace : List Event

/-- The device-tree node of the controller. -/
structure device_node where
  compatible : List String
  model : Option String
  /-- Result of of_property_count_strings on "clock-names": the names, or a
  negative error code when the property is missing or malformed. -/
  clock_names : Except Int (List String)

/-- Everything the driver receives from outside itself: the device node, the
build configuration, the module parameter, and the results of the calls into
the platform and into the generic HDA code. -/
structure platform where
  np : device_node
  chip_id : Nat
  config_tegra_dc : Bool
  power_save : Int
  irq_id : Int
  ioremap_err : Int
  res_start : Nat
  request_irq_err : Int
  init_streams_err : Int
  alloc_stream_pages_err : Int
  codec_mask : Nat
  probe_codecs_err : Int
  codec_configure_err : Int
  card_register_err : Int
  clk_enable_rc : Int
  /-- Contents of the register region when it is mapped. -/
  hw_regs : Nat → Nat
  kzalloc_hda_fails : Bool
  kzalloc_clocks_fails : Bool
  card_new_err : Int
  clk_bulk_get_err : Int
  bus_init_err : Int
  device_new_err : Int
  create_sysfs_err : Int
  card_free_ret : Int
  /-- The codec instances azx_probe_codecs creates on the bus. -/
  codecs : List hda_codec

/-! ## Calls that leave the file -/

/-- Append one call to the trace. -/
def hda_tegra.emit (hda : hda_tegra) (e : Event) : hda_tegra :=
  { hda with trace := hda.trace ++ [e] }

/-- Node matching: of_device_is_compatible answers whether the node lists the
given compatible string. -/
def of_device_is_compatible (np : device_node) (s : String) : Bool :=
  np.compatible.contains s

/-- 32-bit read at a byte offset of the mapped region. -/
def readl (hda : hda_tegra) (off : Nat) : Nat × hda_tegra :=
  (hda.regs off % U32, hda.emit (Event.readl off))

/-- 32-bit write at a byte offset of the mapped region. -/
def writel (v : Nat) (off : Nat) (hda : hda_tegra) : hda_tegra :=
  { hda with
    regs := fun a => if a = off then v % U32 else hda.regs a
    trace := hda.trace ++ [Event.writel (v % U32) off] }

/-- 16-bit read of a controller register; controller registers start at
HDA_BAR0 inside the mapped region (bus->remap_addr = hda->regs + HDA_BAR0). -/
def azx_readw (hda : hda_tegra) (reg : Nat) : Nat × hda_tegra :=
  (hda.regs (HDA_BAR0 + reg) % U16, hda.emit (Event.azx_readw reg))

/-- 16-bit write of a controller register. -/
def azx_writew (reg : Nat) (v : Nat) (hda : hda_tegra) : hda_tegra :=
  { hda with
    regs := fun a => if a = HDA_BAR0 + reg then v % U16 else hda.regs a
    trace := hda.trace ++ [Event.azx_writew reg (v % U16)] }

/-- Set the enabled bit of the first n entries of a clock array. -/
def clk_bulk_set (b : Bool) : Nat → List clk_bulk_data → List clk_bulk_data
  | 0, cs => cs
  | _ + 1, [] => []
  | n + 1, c :: cs => { c with enabled := b } :: clk_bulk_set b n cs

/-- Modelled from the spec: clk_bulk_prepare_enable belongs to the clock
framework, which is outside this file.  Per section 4.2 enabling "fails ... if
any clock in the bulk set fails to enable" and the enabled state of the whole
set changes as a unit: on success every clock of the set is enabled, on failure
the pattern is left as it was.  The return code is the one the platform
reports. -/
def clk_bulk_prepare_enable (p : platform) (hda : hda_tegra) : Int × hda_tegra :=
  let hda := hda.emit Event.clk_bulk_prepare_enable
  if p.clk_enable_rc = 0 then
    (0, { hda with clocks := clk_bulk_set true hda.nclocks hda.clocks })
  else
    (p.clk_enable_rc, hda)

/-- Modelled from the spec: clk_bulk_disable_unprepare belongs to the clock
framework, which is outside this file.  Per section 4.2 disabling "always
succeeds"; every clock of the set ends disabled. -/
def clk_bulk_disable_unprepare (hda : hda_tegra) : hda_tegra :=
  let hda := hda.emit Event.clk_bulk_disable_unprepare
  { hda with clocks := clk_bulk_set false hda.nclocks hda.clocks }

/-- Modelled from the spec: azx_init_chip belongs to the generic controller
code, which is outside this file ("full chip re-initialization", section 4.3).
The model records the call, marks the bus as initialised and latches the codec
mask the hardware reports. -/
def azx_init_chip (p : platform) (hda : hda_tegra) : hda_tegra :=
  let hda := hda.emit Event.azx_init_chip
  { hda with chip := { hda.chip with
      bus := { hda.chip.bus with chip_init := true, codec_mask := p.codec_mask } } }

/-- Modelled from the spec: azx_stop_chip belongs to the generic controller
code, which is outside this file ("stop the chip", section 4.3).  The model
records the call and marks the bus as no longer initialised. -/
def azx_stop_chip (hda : hda_tegra) : hda_tegra :=
  let hda := hda.emit Event.azx_stop_chip
  { hda with chip := { hda.chip with bus := { hda.chip.bus with chip_init := false } } }

/-- Work-queue call schedule_delayed_work on jack_work. -/
def schedule_delayed_work_jack (hda : hda_tegra) : hda_tegra :=
  { hda with
    jack_work_pending := true
    trace := hda.trace ++ [Event.schedule_delayed_work_jack JACKPOLL_INTERVAL] }

/-- Work-queue call cancel_delayed_work_sync on jack_work: a blocking cancel,
after which the work is neither queued nor executing. -/
def cancel_delayed_work_sync_jack (hda : hda_tegra) : hda_tegra :=
  { hda with
    jack_work_pending := false
    trace := hda.trace ++ [Event.cancel_delayed_work_sync_jack] }

/-- Work-queue call schedule_work on probe_work. -/
def schedule_work_probe (hda : hda_tegra) : hda_tegra :=
  { hda with
    probe_work_pending := true
    trace := hda.trace ++ [Event.schedule_work_probe] }

/-- Work-queue call cancel_work_sync on probe_work. -/
def cancel_work_sync_probe (hda : hda_tegra) : hda_tegra :=
  { hda with
    probe_work_pending := false
    trace := hda.trace ++ [Event.cancel_work_sync_probe] }

/-- Sound-core call snd_power_change_state: record the card power state. -/
def snd_power_change_state (st : power_state) (hda : hda_tegra) : hda_tegra :=
  { hda with
    chip := { hda.chip with card := { hda.chip.card with power := st } }
    trace := hda.trace ++ [Event.snd_power_change_state st] }

/-- Modelled from the spec: pm_runtime_get_sync belongs to the runtime-PM core,
which is outside this file.  Per section 4.4 the deferred task "holds a
power-management reference for its whole duration"; the model counts the
reference. -/
def pm_runtime_get_sync (hda : hda_tegra) : hda_tegra :=
  { hda with
    pm_usage := hda.pm_usage + 1
    trace := hda.trace ++ [Event.pm_runtime_get_sync] }

/-- Modelled from the spec: pm_runtime_put belongs to the runtime-PM core,
which is outside this file; it releases the reference taken by
pm_runtime_get_sync. -/
def pm_runtime_put (hda : hda_tegra) : hda_tegra :=
  { hda with
    pm_usage := hda.pm_usage - 1
    trace := hda.trace ++ [Event.pm_runtime_put] }

/-! ## The driver -/

/-- Source function hda_tegra_init: the register bring-up sequence. -/
def hda_tegra_init (p : platform) (hda : hda_tegra) : hda_tegra :=
  -- Enable PCI access
  let (v, hda) := readl hda HDA_IPFS_CONFIG
  let v := v ||| HDA_IPFS_EN_FPCI
  let hda := writel v HDA_IPFS_CONFIG hda
  -- Enable MEM/IO space and bus master
  let (v, hda) := readl hda HDA_CFG_CMD
  let v := v &&& (U32 - 1 - HDA_DISABLE_INTR)
  let v := v ||| (HDA_ENABLE_MEM_SPACE ||| HDA_ENABLE_IO_SPACE |||
    HDA_ENABLE_BUS_MASTER ||| HDA_ENABLE_SERR)
  let hda := writel v HDA_CFG_CMD hda
  let hda := writel HDA_BAR0_INIT_PROGRAM HDA_CFG_BAR0 hda
  let hda := writel HDA_BAR0_FINAL_PROGRAM HDA_CFG_BAR0 hda
  let hda := writel HDA_FPCI_BAR0_START HDA_IPFS_FPCI_BAR0 hda
  let (v, hda) := readl hda HDA_IPFS_INTR_MASK
  let v := v ||| HDA_IPFS_EN_INTR
  let hda := writel v HDA_IPFS_INTR_MASK hda
  -- program HDA_GSC_ID to get access to APR
  if p.chip_id = TEGRA194 ∨ p.chip_id = TEGRA234 then
    writel HDA_GSC_ID HDA_GSC_REG hda
  else
    hda

/-- Source function hda_tegra_runtime_suspend. -/
def hda_tegra_runtime_suspend (hda : hda_tegra) : Int × hda_tegra :=
  let hda :=
    if hda.chip.running then
      -- enable controller wake up event
      let (w, hda) := azx_readw hda AZX_REG_WAKEEN
      let hda := azx_writew AZX_REG_WAKEEN (w ||| STATESTS_INT_MASK) hda
      let hda := azx_stop_chip hda
      hda.emit Event.azx_enter_link_reset
    else
      hda
  let hda := clk_bulk_disable_unprepare hda
  (0, hda)

/-- Source function hda_tegra_runtime_resume. -/
def hda_tegra_runtime_resume (p : platform) (hda : hda_tegra) : Int × hda_tegra :=
  let (rc, hda) := clk_bulk_prepare_enable p hda
  if rc ≠ 0 then
    (rc, hda)
  else
    let hda :=
      if hda.chip.running then
        let hda := hda_tegra_init p hda
        let hda := azx_init_chip p hda
        -- disable controller wake up event
        let (w, hda) := azx_readw hda AZX_REG_WAKEEN
        azx_writew AZX_REG_WAKEEN (w &&& (U32 - 1 - STATESTS_INT_MASK)) hda
      else
        hda
    (0, hda)

/-- Modelled from the spec: pm_runtime_force_suspend belongs to the runtime-PM
core, which is outside this file.  Per section 4.3 system sleep must "execute
the runtime-suspend transition synchronously regardless of runtime-PM state";
the model runs the driver callback and hands back its return code. -/
def pm_runtime_force_suspend (hda : hda_tegra) : Int × hda_tegra :=
  hda_tegra_runtime_suspend (hda.emit Event.pm_runtime_force_suspend)

/-- Modelled from the spec: pm_runtime_force_resume belongs to the runtime-PM
core, which is outside this file.  Per section 4.3 resume must "execute the
runtime-resume transition synchronously"; the model runs the driver callback
and hands back its return code. -/
def pm_runtime_force_resume (p : platform) (hda : hda_tegra) : Int × hda_tegra :=
  hda_tegra_runtime_resume p (hda.emit Event.pm_runtime_force_resume)

/-- Body of the codec loop of hda_tegra_jack_work for one codec. -/
def jack_poll_codec (hda : hda_tegra) (codec : hda_codec) : hda_tegra :=
  if codec.power_on then
    hda
  else
    { hda with trace := hda.trace ++
        [Event.snd_hda_power_up_pm codec.addr,
         Event.snd_hda_jack_set_dirty_all codec.addr,
         Event.snd_hda_jack_poll_all codec.addr,
         Event.snd_hda_power_down_pm codec.addr] }

/-- Source function hda_tegra_jack_work. -/
def hda_tegra_jack_work (hda : hda_tegra) : hda_tegra :=
  if !hda.chip.running then
    hda
  else
    let hda := hda.chip.bus.codecs.foldl jack_poll_codec hda
    schedule_delayed_work_jack hda

/-- One firing of the jack-poll work item: the work queue takes the item off
the queue and calls hda_tegra_jack_work. -/
def fire_jack_work (hda : hda_tegra) : hda_tegra :=
  hda_tegra_jack_work { hda with jack_work_pending := false }

/-- Source function hda_tegra_dev_disconnect. -/
def hda_tegra_dev_disconnect (hda : hda_tegra) : Int × hda_tegra :=
  (0, { hda with chip := { hda.chip with bus := { hda.chip.bus with shutdown := true } } })

/-- Source function hda_tegra_dev_free, the destructor. -/
def hda_tegra_dev_free (hda : hda_tegra) : Int × hda_tegra :=
  let hda := cancel_work_sync_probe hda
  let hda := cancel_delayed_work_sync_jack hda
  let hda :=
    if hda.chip.bus.chip_init then
      let hda := hda.emit Event.azx_stop_all_streams
      azx_stop_chip hda
    else
      hda
  let hda := hda.emit Event.azx_free_stream_pages
  let hda := hda.emit Event.azx_free_streams
  let hda := hda.emit Event.snd_hdac_bus_exit
  (0, hda)

/-- Source function hda_tegra_init_chip. -/
def hda_tegra_init_chip (p : platform) (hda : hda_tegra) : Int × hda_tegra :=
  if p.ioremap_err < 0 then
    (p.ioremap_err, hda)
  else
    let hda := { hda with
      regs_mapped := true
      chip := { hda.chip with bus := { hda.chip.bus with
        remap_addr := HDA_BAR0
        addr := p.res_start + HDA_BAR0 } } }
    let hda := hda_tegra_init p hda
    (0, hda)

/-- The strncpy of the card names: at most n characters are copied. -/
def strncpy (src : String) (n : Nat) : String :=
  String.mk (src.toList.take n)

/-- The longname of the card, "%s at 0x%lx irq %i" cut to the buffer. -/
def card_longname (shortname : String) (addr : Nat) (irq : Int) : String :=
  String.mk ((shortname.toList ++ " at 0x".toList ++ Nat.toDigits 16 addr ++
    " irq ".toList ++ (toString irq).toList).take (SIZEOF_CARD_LONGNAME - 1))

/-- Lines 364 to 404 of hda_tegra_first_init: the SDO-line override of
Tegra194, the read of the capability register and the stream topology computed
from it. -/
def first_init_topology (p : platform) (hda : hda_tegra) : hda_tegra :=
  -- Tegra194: override the number of SDO lines
  let hda :=
    if of_device_is_compatible p.np "nvidia,tegra194-hda" then
      let (v, hda) := readl hda FPCI_DBG_CFG_2
      let val := v &&& (U32 - 1 - FPCI_GCAP_NSDO_MASK)
      let val := val ||| ((TEGRA194_NUM_SDO_LINES >>> 1) <<< FPCI_GCAP_NSDO_SHIFT)
      writel val FPCI_DBG_CFG_2 hda
    else
      hda
  let (gcap, hda) := azx_readw hda AZX_REG_GCAP
  -- read number of streams from GCAP register
  let capture_streams := (gcap >>> 8) &&& 0x0f
  let capture_streams :=
    if of_device_is_compatible p.np "nvidia,tegra23x-hda" then 4 else capture_streams
  let playback_streams := (gcap >>> 12) &&& 0x0f
  let (playback_streams, capture_streams) :=
    if playback_streams = 0 ∧ capture_streams = 0 then
      -- gcap didn't give any info, switching to old method
      (NUM_PLAYBACK_SD, NUM_CAPTURE_SD)
    else
      (playback_streams, capture_streams)
  { hda with chip := { hda.chip with
      align_buffer_size := true
      capture_streams := capture_streams
      playback_streams := playback_streams
      capture_index_offset := 0
      playback_index_offset := capture_streams
      num_streams := playback_streams + capture_streams } }

/-- Lines 406 to 461 of hda_tegra_first_init: stream set-up, chip
initialisation, codec detection and the card names. -/
def first_init_codecs (p : platform) (hda : hda_tegra) : Int × hda_tegra :=
  let drv_name := "tegra-hda"
  -- initialize streams
  let hda := hda.emit Event.azx_init_streams
  if p.init_streams_err < 0 then
    (p.init_streams_err, hda.emit Event.dev_err)
  else
    let hda := hda.emit Event.azx_alloc_stream_pages
    if p.alloc_stream_pages_err < 0 then
      (p.alloc_stream_pages_err, hda.emit Event.dev_err)
    else
      -- initialize chip
      let hda := azx_init_chip p hda
      let hda :=
        if of_device_is_compatible p.np "nvidia,tegra30-hda" then
          { hda with chip := { hda.chip with
              bus := { hda.chip.bus with sdo_limit := 16 } } }
        else
          hda
      -- codec detection
      if hda.chip.bus.codec_mask = 0 then
        (-ENODEV, hda.emit Event.dev_err)
      else
        let sname := match p.np.model with
          | some m => m
          | none => drv_name
        let shortname := strncpy sname SIZEOF_CARD_SHORTNAME
        let hda := { hda with chip := { hda.chip with card := { hda.chip.card with
          driver := strncpy drv_name SIZEOF_CARD_DRIVER
          shortname := shortname
          longname :=
            card_longname shortname hda.chip.bus.addr hda.chip.bus.irq } } }
        (0, hda)

/-- Source function hda_tegra_first_init, lines 316 to 462; its two long
blocks are first_init_topology and first_init_codecs above.  The
interrupt-affinity hint of Android builds has no effect on the handle and is
left out. -/
def hda_tegra_first_init (p : platform) (hda : hda_tegra) : Int × hda_tegra :=
  let irq_id := p.irq_id
  if irq_id < 0 then
    (irq_id, hda)
  else
    let (err, hda) := hda_tegra_init_chip p hda
    if err ≠ 0 then
      (err, hda)
    else
      let hda := hda.emit (Event.devm_request_irq irq_id)
      if p.request_irq_err ≠ 0 then
        (p.request_irq_err, hda.emit Event.dev_err)
      else
        let hda := { hda with chip := { hda.chip with
          bus := { hda.chip.bus with irq := irq_id, dma_stop_delay := 100 }
          card := { hda.chip.card with sync_irq := irq_id } } }
        let hda := first_init_topology p hda
        first_init_codecs p hda

/-- The handle as devm_kzalloc returns it: every field zero, both work items
idle, nothing traced yet.  The register region is the hardware behind it. -/
def hda_tegra_zeroed (p : platform) : hda_tegra :=
  { chip :=
      { running := false
        capture_streams := 0
        playback_streams := 0
        capture_index_offset := 0
        playback_index_offset := 0
        num_streams := 0
        align_buffer_size := false
        driver_caps := 0
        driver_type := 0
        bus :=
          { chip_init := false
            codec_mask := 0
            irq := 0
            dma_stop_delay := 0
            sdo_limit := 0
            shutdown := false
            sync_write := false
            needs_damn_long_delay := false
            aligned_mmio := false
            remap_addr := 0
            addr := 0
            codecs := [] }
        card :=
          { driver := ""
            shortname := ""
            longname := ""
            sync_irq := 0
            power := power_state.D0 } }
    clocks := []
    clocks_alloc := 0
    nclocks := 0
    regs := p.hw_regs
    regs_mapped := false
    probe_work_pending := false
    jack_work_pending := false
    pm_usage := 0
    trace := [] }

/-- Source function hda_tegra_create, the constructor. -/
def hda_tegra_create (p : platform) (driver_caps : Nat) (hda : hda_tegra) :
    Int × hda_tegra :=
  let hda := { hda with chip := { hda.chip with
    driver_caps := driver_caps
    driver_type := driver_caps &&& 0xff } }
  if p.bus_init_err < 0 then
    (p.bus_init_err, hda)
  else
    let hda := { hda with chip := { hda.chip with bus := { hda.chip.bus with
      sync_write := false
      needs_damn_long_delay := true
      aligned_mmio := true } } }
    if p.device_new_err < 0 then
      (p.device_new_err, hda.emit Event.dev_err)
    else
      (0, hda)

/-- What azx_has_pm_runtime answers: the runtime-PM capability bit. -/
def azx_has_pm_runtime (chip : azx) : Bool :=
  chip.driver_caps &&& AZX_DCAPS_PM_RUNTIME ≠ 0

/-- Source function hda_tegra_probe.  On success the handle is bound to the
device; on failure only the error code is left. -/
def hda_tegra_probe (p : platform) : Int × Option hda_tegra :=
  let driver_flags := AZX_DCAPS_CORBRP_SELF_CLEAR ||| AZX_DCAPS_PM_RUNTIME |||
    AZX_DCAPS_4K_BDLE_BOUNDARY
  if p.kzalloc_hda_fails then
    (-ENOMEM, none)
  else
    let hda := hda_tegra_zeroed p
    match p.np.clock_names with
    | Except.error _ => (-EINVAL, none)
    | Except.ok names =>
      let num := names.length
      let hda := { hda with nclocks := num, clocks_alloc := num * SIZEOF_POINTER }
      if p.kzalloc_clocks_fails then
        (-ENOMEM, none)
      else
        let hda := { hda with
          clocks := names.map (fun name => { id := name, enabled := false }) }
        if p.card_new_err < 0 then
          (p.card_new_err, none)
        else if p.clk_bulk_get_err < 0 then
          (p.clk_bulk_get_err, none)
        else
          let (err, hda) := hda_tegra_create p driver_flags hda
          if err < 0 then
            (err, none)
          else
            let hda := hda.emit Event.pm_runtime_enable
            let hda :=
              if !azx_has_pm_runtime hda.chip then
                hda.emit Event.pm_runtime_forbid
              else
                hda
            let hda := schedule_work_probe hda
            (0, some hda)

/-- Modelled from the spec: azx_probe_codecs belongs to the generic controller
code, which is outside this file ("codec enumeration", section 4.4).  The
model records the call and, when it succeeds, puts the codec instances the
platform has on the bus. -/
def azx_probe_codecs (p : platform) (hda : hda_tegra) : Int × hda_tegra :=
  let hda := hda.emit Event.azx_probe_codecs
  if p.probe_codecs_err < 0 then
    (p.probe_codecs_err, hda)
  else
    (0, { hda with chip := { hda.chip with
      bus := { hda.chip.bus with codecs := p.codecs } } })

/-- Source function hda_tegra_probe_work, the deferred probe.  The sysfs
export of display builds is recorded as a call; its files are outside the
handle. -/
def hda_tegra_probe_work (p : platform) (hda : hda_tegra) : hda_tegra :=
  let out_free := fun (hda : hda_tegra) =>
    let hda := pm_runtime_put hda
    schedule_delayed_work_jack hda
  let hda := pm_runtime_get_sync hda
  let (err, hda) := hda_tegra_first_init p hda
  if err < 0 then
    out_free hda
  else
    -- create codec instances
    let (err, hda) := azx_probe_codecs p hda
    if err < 0 then
      out_free hda
    else
      let hda := hda.emit Event.azx_codec_configure
      if p.codec_configure_err < 0 then
        out_free hda
      else
        let hda := hda.emit Event.snd_card_register
        if p.card_register_err < 0 then
          out_free hda
        else
          let hda := { hda with chip := { hda.chip with running := true } }
          let hda := hda.emit (Event.snd_hda_set_power_save (p.power_save * 1000))
          let hda :=
            if p.config_tegra_dc then
              let hda := hda.emit Event.hda_tegra_create_sysfs
              if p.create_sysfs_err < 0 then
                (hda.emit Event.dev_err).emit Event.hda_tegra_remove_sysfs
              else
                hda
            else
              hda
          out_free hda

/-- One execution of the deferred probe: the work queue takes the item off the
queue and calls hda_tegra_probe_work. -/
def fire_probe_work (p : platform) (hda : hda_tegra) : hda_tegra :=
  hda_tegra_probe_work p { hda with probe_work_pending := false }

/-- Modelled from the spec: snd_card_free belongs to the sound core, which is
outside this file.  Per section 4.3 removal ends in the destructor of the
low-level device; the model records the call, runs the disconnect callback and
then the destructor registered in hda_tegra_create, and hands back the result
the sound core reports. -/
def snd_card_free (p : platform) (hda : hda_tegra) : Int × hda_tegra :=
  let hda := hda.emit Event.snd_card_free
  let (_, hda) := hda_tegra_dev_disconnect hda
  let (_, hda) := hda_tegra_dev_free hda
  (p.card_free_ret, hda)

/-- Source function hda_tegra_remove. -/
def hda_tegra_remove (p : platform) (hda : hda_tegra) : Int × hda_tegra :=
  let hda :=
    if p.config_tegra_dc then hda.emit Event.hda_tegra_remove_sysfs else hda
  let hda := cancel_delayed_work_sync_jack hda
  let (ret, hda) := snd_card_free p hda
  let hda := hda.emit Event.pm_runtime_disable
  (ret, hda)

/-- Source function hda_tegra_shutdown.  The argument is what dev_get_drvdata
finds on the device: nothing, or the bound handle. -/
def hda_tegra_shutdown (drvdata : Option hda_tegra) : Option hda_tegra :=
  match drvdata with
  | none => none
  | some hda =>
    let hda := cancel_delayed_work_sync_jack hda
    if hda.chip.running then
      some (azx_stop_chip hda)
    else
      some hda

/-- The enabled pattern of the clock set, one bit per clock. -/
def clock_pattern (hda : hda_tegra) : List Bool :=
  hda.clocks.map (fun c => c.enabled)

/-- The calls a handle has made since an earlier handle of the same run. -/
def calls_since (before after : hda_tegra) : List Event :=
  after.trace.drop before.trace.length

/-- The second handle continues the run of the first, and every call made in
between passes the test. -/
def continues_with (ok : Event → Bool) (a b : hda_tegra) : Prop :=
  ∃ l, b.trace = a.trace ++ l ∧ l.all ok = true

/-- The two calls at the exit label of hda_tegra_probe_work: the release of
the power reference and the scheduling of the jack poll. -/
def Event.is_probe_exit : Event → Bool
  | Event.pm_runtime_put => true
  | Event.schedule_delayed_work_jack _ => true
  | _ => false

/-- The calls of the bring-up sequence, in program order, as a function of the
register contents it starts from. -/
def hda_tegra_init_calls (p : platform) (regs : Nat → Nat) : List Event :=
  [Event.readl HDA_IPFS_CONFIG,
   Event.writel ((regs HDA_IPFS_CONFIG % U32 ||| HDA_IPFS_EN_FPCI) % U32) HDA_IPFS_CONFIG,
   Event.readl HDA_CFG_CMD,
   Event.writel (((regs HDA_CFG_CMD % U32 &&& (U32 - 1 - HDA_DISABLE_INTR)) |||
     (HDA_ENABLE_MEM_SPACE ||| HDA_ENABLE_IO_SPACE ||| HDA_ENABLE_BUS_MASTER |||
       HDA_ENABLE_SERR)) % U32) HDA_CFG_CMD,
   Event.writel (HDA_BAR0_INIT_PROGRAM % U32) HDA_CFG_BAR0,
   Event.writel (HDA_BAR0_FINAL_PROGRAM % U32) HDA_CFG_BAR0,
   Event.writel (HDA_FPCI_BAR0_START % U32) HDA_IPFS_FPCI_BAR0,
   Event.readl HDA_IPFS_INTR_MASK,
   Event.writel ((regs HDA_IPFS_INTR_MASK % U32 ||| HDA_IPFS_EN_INTR) % U32)
     HDA_IPFS_INTR_MASK] ++
  (if p.chip_id = TEGRA194 ∨ p.chip_id = TEGRA234 then
    [Event.writel (HDA_GSC_ID % U32) HDA_GSC_REG] else [])

/-- The calls one firing of the jack poll makes for a list of codecs: four per
codec that reports not powered, none for a powered one. -/
def jack_poll_calls : List hda_codec → List Event
  | [] => []
  | codec :: rest =>
    (if codec.power_on then []
     else [Event.snd_hda_power_up_pm codec.addr,
           Event.snd_hda_jack_set_dirty_all codec.addr,
           Event.snd_hda_jack_poll_all codec.addr,
           Event.snd_hda_power_down_pm codec.addr]) ++ jack_poll_calls rest

/-- The calls of the runtime-idle transition that touch the controller: the
wake-enable write, the chip stop and the link reset. -/
def runtime_suspend_hw_calls (hda : hda_tegra) : List Event :=
  [Event.azx_readw AZX_REG_WAKEEN,
   Event.azx_writew AZX_REG_WAKEEN
     ((hda.regs (HDA_BAR0 + AZX_REG_WAKEEN) % U16 ||| STATESTS_INT_MASK) % U16),
   Event.azx_stop_chip,
   Event.azx_enter_link_reset]

/-- A sample platform: a Tegra194 node with two clocks, every outside call
succeeding, one codec detected, the capability register reading 0x4401. -/
def sample_platform : platform :=
  { np :=
      { compatible := ["nvidia,tegra194-hda", "nvidia,tegra30-hda"]
        model := none
        clock_names := Except.ok ["hda", "hda2hdmi"] }
    chip_id := TEGRA194
    config_tegra_dc := false
    power_save := 1
    irq_id := 61
    ioremap_err := 0
    res_start := 0x3510000
    request_irq_err := 0
    init_streams_err := 0
    alloc_stream_pages_err := 0
    codec_mask := 1
    probe_codecs_err := 0
    codec_configure_err := 0
    card_register_err := 0
    clk_enable_rc := 0
    hw_regs := fun a => if a = HDA_BAR0 + AZX_REG_GCAP then 0x4401 else 0
    kzalloc_hda_fails := false
    kzalloc_clocks_fails := false
    card_new_err := 0
    clk_bulk_get_err := 0
    bus_init_err := 0
    device_new_err := 0
    create_sysfs_err := 0
    card_free_ret := 0
    codecs := [{ addr := 0, power_on := false }] }

/-- A zeroed handle in front of hardware whose capability register reads the
given value. -/
def handle_with_gcap (p : platform) (cap : Nat) : hda_tegra :=
  { hda_tegra_zeroed p with
    regs := fun a => if a = HDA_BAR0 + AZX_REG_GCAP then cap else 0 }

/-- The sample platform with a node that lists only the Tegra30 compatible. -/
def sample_tegra30 : platform :=
  { sample_platform with
    np := { sample_platform.np with compatible := ["nvidia,tegra30-hda"] }
    chip_id := 0x30 }

/-- The sample platform with no codec answering on the link. -/
def sample_no_codec : platform :=
  { sample_platform with codec_mask := 0, codecs := [] }

/-- The handle bound to the device by a successful probe. -/
def bound_handle (p : platform) : hda_tegra :=
  (hda_tegra_probe p).2.getD (hda_tegra_zeroed p)

/-- The handle when the deferred probe starts: probe has returned and the
runtime-PM core has resumed the device for the reference the task takes. -/
def probing_handle (p : platform) : hda_tegra :=
  (hda_tegra_runtime_resume p (bound_handle p)).2

/-- A Running handle: the sample platform after probe and a successful
deferred probe. -/
def sample_running : hda_tegra :=
  fire_probe_work sample_platform (probing_handle sample_platform)

/-- A RuntimeSuspended handle: the Running sample after the runtime-idle
transition. -/
def sample_runtime_suspended : hda_tegra :=
  (hda_tegra_runtime_suspend sample_running).2

/-- The register contents the bring-up sequence leaves, offset by offset, as a
function of the contents it starts from: the closed form of the reads and
writes of hda_tegra_init over the register store. -/
def hda_tegra_init_regs (p : platform) (regs : Nat → Nat) (a : Nat) : Nat :=
  if a = HDA_GSC_REG ∧ (p.chip_id = TEGRA194 ∨ p.chip_id = TEGRA234) then
    HDA_GSC_ID % U32
  else if a = HDA_IPFS_INTR_MASK then
    (regs HDA_IPFS_INTR_MASK % U32 ||| HDA_IPFS_EN_INTR) % U32
  else if a = HDA_IPFS_FPCI_BAR0 then
    HDA_FPCI_BAR0_START % U32
  else if a = HDA_CFG_BAR0 then
    HDA_BAR0_FINAL_PROGRAM % U32
  else if a = HDA_CFG_CMD then
    ((regs HDA_CFG_CMD % U32 &&& (U32 - 1 - HDA_DISABLE_INTR)) |||
      (HDA_ENABLE_MEM_SPACE ||| HDA_ENABLE_IO_SPACE ||| HDA_ENABLE_BUS_MASTER |||
        HDA_ENABLE_SERR)) % U32
  else if a = HDA_IPFS_CONFIG then
    (regs HDA_IPFS_CONFIG % U32 ||| HDA_IPFS_EN_FPCI) % U32
  else
    regs a

/-- Size in bytes of one entry of the clock array, struct clk_bulk_data of
linux/clk.h: the name pointer id followed by the clock handle clk. -/
def SIZEOF_CLK_BULK_DATA : Nat := SIZEOF_POINTER + SIZEOF_POINTER

/-- First byte past the id field of entry i of the clock array, counted from
the start of the array: where the store clocks[i].id = name ends. -/
def clk_id_store_end (i : Nat) : Nat :=
  i * SIZEOF_CLK_BULK_DATA + SIZEOF_POINTER

/-! ## The bring-up sequence -/

theorem hda_tegra_init_frame (p : platform) (hda : hda_tegra) :
    hda_tegra_init p hda =
      { hda with regs := (hda_tegra_init p hda).regs
                 trace := hda.trace ++ hda_tegra_init_calls p hda.regs } := by
  unfold hda_tegra_init hda_tegra_init_calls
  by_cases h : p.chip_id = TEGRA194 ∨ p.chip_id = TEGRA234 <;>
  simp [h, readl, writel, hda_tegra.emit, HDA_IPFS_CONFIG, HDA_CFG_CMD, HDA_CFG_BAR0,
    HDA_IPFS_FPCI_BAR0, HDA_IPFS_INTR_MASK]

theorem hda_tegra_init_trace (p : platform) (hda : hda_tegra) :
    (hda_tegra_init p hda).trace = hda.trace ++ hda_tegra_init_calls p hda.regs := by
  rw [hda_tegra_init_frame]

theorem hda_tegra_init_chip_eq (p : platform) (hda : hda_tegra) :
    (hda_tegra_init p hda).chip = hda.chip := by
  rw [hda_tegra_init_frame]

theorem hda_tegra_init_clocks (p : platform) (hda : hda_tegra) :
    (hda_tegra_init p hda).clocks = hda.clocks := by
  rw [hda_tegra_init_frame]

/-- The bring-up sequence writes only below the FPCI configuration window's
end: every offset from 0x1100 on keeps its contents. -/
theorem hda_tegra_init_regs_other (p : platform) (hda : hda_tegra) (a : Nat)
    (ha : HDA_DFPCI_CFG + 0x100 ≤ a) :
    (hda_tegra_init p hda).regs a = hda.regs a := by
  unfold hda_tegra_init
  unfold HDA_DFPCI_CFG at ha
  have h1 : a ≠ HDA_IPFS_CONFIG := by unfold HDA_IPFS_CONFIG; omega
  have h2 : a ≠ HDA_CFG_CMD := by unfold HDA_CFG_CMD; omega
  have h3 : a ≠ HDA_CFG_BAR0 := by unfold HDA_CFG_BAR0; omega
  have h4 : a ≠ HDA_IPFS_FPCI_BAR0 := by unfold HDA_IPFS_FPCI_BAR0; omega
  have h5 : a ≠ HDA_IPFS_INTR_MASK := by unfold HDA_IPFS_INTR_MASK; omega
  have h6 : a ≠ HDA_GSC_REG := by unfold HDA_GSC_REG; omega
  by_cases h : p.chip_id = TEGRA194 ∨ p.chip_id = TEGRA234 <;>
  simp [h, readl, writel, hda_tegra.emit, h1, h2, h3, h4, h5, h6]

theorem hda_tegra_init_regs_gcap (p : platform) (hda : hda_tegra) :
    (hda_tegra_init p hda).regs (HDA_BAR0 + AZX_REG_GCAP) =
      hda.regs (HDA_BAR0 + AZX_REG_GCAP) :=
  hda_tegra_init_regs_other p hda _ (by decide)

theorem hda_tegra_init_regs_wakeen (p : platform) (hda : hda_tegra) :
    (hda_tegra_init p hda).regs (HDA_BAR0 + AZX_REG_WAKEEN) =
      hda.regs (HDA_BAR0 + AZX_REG_WAKEEN) :=
  hda_tegra_init_regs_other p hda _ (by decide)

theorem gcap_ne_dbg_cfg : HDA_BAR0 + AZX_REG_GCAP ≠ FPCI_DBG_CFG_2 := by decide

/-! ## Wake-enable arithmetic -/

theorem wakeen_set_bits (w : Nat) :
    ((w ||| STATESTS_INT_MASK) % U16) &&& STATESTS_INT_MASK = STATESTS_INT_MASK := by
  have h255 : STATESTS_INT_MASK = 2 ^ 8 - 1 := by decide
  rw [h255, U16]
  apply Nat.eq_of_testBit_eq
  intro i
  simp only [Nat.testBit_and, Nat.testBit_mod_two_pow, Nat.testBit_or,
    Nat.testBit_two_pow_sub_one]
  by_cases hi : i < 8
  · have : i < 16 := by omega
    simp [hi, this]
  · simp [hi]

theorem wakeen_clear_bits (w : Nat) :
    ((w &&& (U32 - 1 - STATESTS_INT_MASK)) % U16) &&& STATESTS_INT_MASK = 0 := by
  have h255 : STATESTS_INT_MASK = 2 ^ 8 - 1 := by decide
  have hm : U32 - 1 - STATESTS_INT_MASK = (2 ^ 24 - 1) <<< 8 := by decide
  rw [hm, h255, U16]
  apply Nat.eq_of_testBit_eq
  intro i
  simp only [Nat.testBit_and, Nat.testBit_mod_two_pow, Nat.testBit_two_pow_sub_one,
    Nat.testBit_shiftLeft, Nat.zero_testBit]
  by_cases hi : i < 8
  · have : ¬ i ≥ 8 := by omega
    simp [hi, this]
  · simp [hi]

/-! ## Clock set -/

theorem clk_bulk_set_of_all (b : Bool) (n : Nat) (cs : List clk_bulk_data)
    (h : ∀ c ∈ cs, c.enabled = b) : clk_bulk_set b n cs = cs := by
  induction n generalizing cs with
  | zero => simp [clk_bulk_set]
  | succ n ih =>
    cases cs with
    | nil => simp [clk_bulk_set]
    | cons c cs =>
      have hc : c.enabled = b := h c (List.mem_cons_self c cs)
      have hcs : ∀ x ∈ cs, x.enabled = b := fun x hx => h x (List.mem_cons_of_mem c hx)
      simp only [clk_bulk_set, ih cs hcs]
      cases c
      simp_all

/-! ## Runtime suspend and resume -/

theorem runtime_suspend_trace (hda : hda_tegra) :
    (hda_tegra_runtime_suspend hda).2.trace =
      hda.trace ++ (if hda.chip.running then runtime_suspend_hw_calls hda else []) ++
      [Event.clk_bulk_disable_unprepare] := by
  unfold hda_tegra_runtime_suspend runtime_suspend_hw_calls
  by_cases h : hda.chip.running <;>
  simp [h, azx_readw, azx_writew, azx_stop_chip, clk_bulk_disable_unprepare, hda_tegra.emit]

theorem runtime_suspend_clocks (hda : hda_tegra) :
    (hda_tegra_runtime_suspend hda).2.clocks = clk_bulk_set false hda.nclocks hda.clocks ∧
    (hda_tegra_runtime_suspend hda).2.nclocks = hda.nclocks := by
  unfold hda_tegra_runtime_suspend
  by_cases h : hda.chip.running <;>
  simp [h, azx_readw, azx_writew, azx_stop_chip, clk_bulk_disable_unprepare, hda_tegra.emit]

theorem runtime_suspend_fields (hda : hda_tegra) :
    (hda_tegra_runtime_suspend hda).2.chip.running = hda.chip.running ∧
    (hda_tegra_runtime_suspend hda).2.chip.card = hda.chip.card ∧
    (hda_tegra_runtime_suspend hda).2.jack_work_pending = hda.jack_work_pending ∧
    (hda_tegra_runtime_suspend hda).2.probe_work_pending = hda.probe_work_pending := by
  unfold hda_tegra_runtime_suspend
  by_cases h : hda.chip.running <;>
  simp [h, azx_readw, azx_writew, azx_stop_chip, clk_bulk_disable_unprepare, hda_tegra.emit]

theorem runtime_resume_fail (p : platform) (hda : hda_tegra) (h : p.clk_enable_rc ≠ 0) :
    hda_tegra_runtime_resume p hda =
      (p.clk_enable_rc, { hda with trace := hda.trace ++ [Event.clk_bulk_prepare_enable] }) := by
  unfold hda_tegra_runtime_resume clk_bulk_prepare_enable
  simp [h, hda_tegra.emit]

theorem runtime_resume_ret (p : platform) (hda : hda_tegra) :
    (hda_tegra_runtime_resume p hda).1 = p.clk_enable_rc := by
  unfold hda_tegra_runtime_resume clk_bulk_prepare_enable
  by_cases hrc : p.clk_enable_rc = 0 <;> simp [hrc, hda_tegra.emit]

theorem runtime_resume_running (p : platform) (hda : hda_tegra) :
    (hda_tegra_runtime_resume p hda).2.chip.running = hda.chip.running := by
  unfold hda_tegra_runtime_resume clk_bulk_prepare_enable
  by_cases hrc : p.clk_enable_rc = 0 <;> by_cases hr : hda.chip.running <;>
    simp [hrc, hr, hda_tegra.emit, azx_readw, azx_writew, azx_init_chip,
      hda_tegra_init_chip_eq]

theorem runtime_resume_trace (p : platform) (hda : hda_tegra) :
    (hda_tegra_runtime_resume p hda).2.trace =
      hda.trace ++ [Event.clk_bulk_prepare_enable] ++
      (if p.clk_enable_rc = 0 ∧ hda.chip.running = true then
        hda_tegra_init_calls p hda.regs ++
        [Event.azx_init_chip,
         Event.azx_readw AZX_REG_WAKEEN,
         Event.azx_writew AZX_REG_WAKEEN
           ((hda.regs (HDA_BAR0 + AZX_REG_WAKEEN) % U16 &&&
              (U32 - 1 - STATESTS_INT_MASK)) % U16)]
       else []) := by
  unfold hda_tegra_runtime_resume clk_bulk_prepare_enable
  by_cases hrc : p.clk_enable_rc = 0 <;> by_cases hr : hda.chip.running <;>
    simp [hrc, hr, hda_tegra.emit, azx_readw, azx_writew, azx_init_chip,
      hda_tegra_init_trace, hda_tegra_init_regs_wakeen]

theorem runtime_resume_clocks (p : platform) (hda : hda_tegra) :
    (hda_tegra_runtime_resume p hda).2.clocks =
      (if p.clk_enable_rc = 0 then clk_bulk_set true hda.nclocks hda.clocks
       else hda.clocks) := by
  unfold hda_tegra_runtime_resume clk_bulk_prepare_enable
  by_cases hrc : p.clk_enable_rc = 0 <;> by_cases hr : hda.chip.running <;>
    simp [hrc, hr, hda_tegra.emit, azx_readw, azx_writew, azx_init_chip,
      hda_tegra_init_clocks]

/-- C7. The runtime-idle transition hda_tegra_runtime_suspend always returns
0 and its last call is the clock disable, after which every clock of the set
is off.  Before the clock disable it makes, in this order, the wake-enable
write (with all eight wake bits set in the value written), the chip stop and
the link reset when the hardware-running flag is true, and makes no call at
all, so no register write, when the flag is false. -/
theorem runtime_suspend_sequence (hda : hda_tegra) :
    (hda_tegra_runtime_suspend hda).1 = 0 ∧
    calls_since hda (hda_tegra_runtime_suspend hda).2 =
      (if hda.chip.running then
        [Event.azx_readw AZX_REG_WAKEEN,
         Event.azx_writew AZX_REG_WAKEEN
           ((hda.regs (HDA_BAR0 + AZX_REG_WAKEEN) % U16 ||| STATESTS_INT_MASK) % U16),
         Event.azx_stop_chip,
         Event.azx_enter_link_reset,
         Event.clk_bulk_disable_unprepare]
       else [Event.clk_bulk_disable_unprepare]) ∧
    ((hda.regs (HDA_BAR0 + AZX_REG_WAKEEN) % U16 ||| STATESTS_INT_MASK) % U16)
      &&& STATESTS_INT_MASK = STATESTS_INT_MASK ∧
    (hda_tegra_runtime_suspend hda).2.clocks = clk_bulk_set false hda.nclocks hda.clocks := by
  refine ⟨rfl, ?_, wakeen_set_bits _, (runtime_suspend_clocks hda).1⟩
  unfold calls_since
  rw [runtime_suspend_trace, List.append_assoc, List.drop_left]
  by_cases h : hda.chip.running <;> simp [h, runtime_suspend_hw_calls]

/-- C8. The runtime-active transition hda_tegra_runtime_resume calls the clock
enable first.  When that fails it returns the error code and the handle is
as before apart from the recorded call: no register access, no bring-up, the
running flag untouched.  When it succeeds it returns 0, every clock of the set
is on, and with the hardware-running flag true the calls that follow are the
bring-up sequence, then the chip initialisation, then the wake-enable write,
whose value has all eight wake bits clear; with the flag false nothing
follows. -/
theorem runtime_resume_sequence (p : platform) (hda : hda_tegra) :
    (if p.clk_enable_rc ≠ 0 then
      hda_tegra_runtime_resume p hda =
        (p.clk_enable_rc, { hda with trace := hda.trace ++ [Event.clk_bulk_prepare_enable] })
     else
      (hda_tegra_runtime_resume p hda).1 = 0 ∧
      (hda_tegra_runtime_resume p hda).2.clocks = clk_bulk_set true hda.nclocks hda.clocks ∧
      calls_since hda (hda_tegra_runtime_resume p hda).2 =
        Event.clk_bulk_prepare_enable ::
          (if hda.chip.running then
            hda_tegra_init_calls p hda.regs ++
            [Event.azx_init_chip,
             Event.azx_readw AZX_REG_WAKEEN,
             Event.azx_writew AZX_REG_WAKEEN
               ((hda.regs (HDA_BAR0 + AZX_REG_WAKEEN) % U16 &&&
                  (U32 - 1 - STATESTS_INT_MASK)) % U16)]
           else [])) ∧
    (hda_tegra_runtime_resume p hda).2.chip.running = hda.chip.running ∧
    ((hda.regs (HDA_BAR0 + AZX_REG_WAKEEN) % U16 &&& (U32 - 1 - STATESTS_INT_MASK)) % U16)
      &&& STATESTS_INT_MASK = 0 := by
  refine ⟨?_, runtime_resume_running p hda, wakeen_clear_bits _⟩
  by_cases hrc : p.clk_enable_rc = 0
  · simp only [hrc, ne_eq, not_true_eq_false, if_false]
    refine ⟨?_, ?_, ?_⟩
    · rw [runtime_resume_ret, hrc]
    · rw [runtime_resume_clocks]; simp [hrc]
    · unfold calls_since
      rw [runtime_resume_trace, List.append_assoc, List.drop_left]
      by_cases hr : hda.chip.running <;> simp [hrc, hr]
  · simp only [ne_eq, hrc, not_false_eq_true, if_true]
    exact runtime_resume_fail p hda hrc

/-! ## First initialisation -/

theorem continues_with_refl (ok : Event → Bool) (a : hda_tegra) : continues_with ok a a :=
  ⟨[], by simp, by simp⟩

theorem continues_with_trans (ok : Event → Bool) (a b c : hda_tegra)
    (hab : continues_with ok a b) (hbc : continues_with ok b c) : continues_with ok a c := by
  obtain ⟨l1, h1, q1⟩ := hab
  obtain ⟨l2, h2, q2⟩ := hbc
  refine ⟨l1 ++ l2, ?_, ?_⟩
  · rw [h2, h1, List.append_assoc]
  · simp [List.all_append, q1, q2]

theorem continues_with_same_trace (ok : Event → Bool) (a b c : hda_tegra)
    (hab : continues_with ok a b) (h : c.trace = b.trace) : continues_with ok a c := by
  obtain ⟨l, hl, ql⟩ := hab
  exact ⟨l, by rw [h, hl], ql⟩

theorem continues_with_of_trace (ok : Event → Bool) (a b : hda_tegra) (l : List Event)
    (h : b.trace = a.trace ++ l) (q : l.all ok = true) : continues_with ok a b :=
  ⟨l, h, q⟩

theorem hda_tegra_init_quiet (p : platform) (hda : hda_tegra) :
    continues_with (fun e => !e.is_probe_exit) hda (hda_tegra_init p hda) := by
  refine ⟨hda_tegra_init_calls p hda.regs, hda_tegra_init_trace p hda, ?_⟩
  unfold hda_tegra_init_calls
  by_cases h : p.chip_id = TEGRA194 ∨ p.chip_id = TEGRA234 <;>
  simp [h, Event.is_probe_exit]

theorem first_init_topology_quiet (p : platform) (hda : hda_tegra) :
    continues_with (fun e => !e.is_probe_exit) hda (first_init_topology p hda) := by
  unfold first_init_topology continues_with
  by_cases c1 : of_device_is_compatible p.np "nvidia,tegra194-hda" = true <;>
  simp [c1, readl, writel, azx_readw, hda_tegra.emit, Event.is_probe_exit]

theorem first_init_codecs_quiet (p : platform) (hda : hda_tegra) :
    continues_with (fun e => !e.is_probe_exit) hda (first_init_codecs p hda).2 := by
  unfold first_init_codecs continues_with
  by_cases c3 : of_device_is_compatible p.np "nvidia,tegra30-hda" = true <;>
  by_cases c4 : p.init_streams_err < 0 <;>
  by_cases c5 : p.alloc_stream_pages_err < 0 <;>
  by_cases c6 : p.codec_mask = 0 <;>
  simp [c3, c4, c5, c6, hda_tegra.emit, azx_init_chip, Event.is_probe_exit]

theorem first_init_codecs_fields (p : platform) (hda : hda_tegra) :
    (first_init_codecs p hda).2.chip.capture_streams = hda.chip.capture_streams ∧
    (first_init_codecs p hda).2.chip.playback_streams = hda.chip.playback_streams ∧
    (first_init_codecs p hda).2.chip.running = hda.chip.running := by
  unfold first_init_codecs
  by_cases c3 : of_device_is_compatible p.np "nvidia,tegra30-hda" = true <;>
  by_cases c4 : p.init_streams_err < 0 <;>
  by_cases c5 : p.alloc_stream_pages_err < 0 <;>
  by_cases c6 : p.codec_mask = 0 <;>
  simp [c3, c4, c5, c6, hda_tegra.emit, azx_init_chip]

theorem first_init_codecs_no_codec (p : platform) (hda : hda_tegra)
    (hs : 0 ≤ p.init_streams_err) (ha : 0 ≤ p.alloc_stream_pages_err)
    (hm : p.codec_mask = 0) :
    (first_init_codecs p hda).1 = -ENODEV ∧
    (first_init_codecs p hda).2.chip.bus.codec_mask = 0 := by
  unfold first_init_codecs
  have c4 : ¬ p.init_streams_err < 0 := by omega
  have c5 : ¬ p.alloc_stream_pages_err < 0 := by omega
  by_cases c3 : of_device_is_compatible p.np "nvidia,tegra30-hda" = true <;>
  simp [c3, c4, c5, hm, hda_tegra.emit, azx_init_chip]

theorem first_init_topology_running (p : platform) (hda : hda_tegra) :
    (first_init_topology p hda).chip.running = hda.chip.running := by
  unfold first_init_topology
  by_cases c1 : of_device_is_compatible p.np "nvidia,tegra194-hda" = true <;>
  simp [c1, readl, writel, azx_readw, hda_tegra.emit]

theorem first_init_topology_streams (p : platform) (hda : hda_tegra) :
    let cap := hda.regs (HDA_BAR0 + AZX_REG_GCAP) % U16
    let capture :=
      if of_device_is_compatible p.np "nvidia,tegra23x-hda" then 4 else (cap >>> 8) &&& 0xF
    let playback := (cap >>> 12) &&& 0xF
    ((first_init_topology p hda).chip.capture_streams,
      (first_init_topology p hda).chip.playback_streams) =
        (if capture = 0 ∧ playback = 0 then (1, 1) else (capture, playback)) := by
  intro cap capture playback
  simp only [capture, playback, cap]
  unfold first_init_topology
  by_cases c1 : of_device_is_compatible p.np "nvidia,tegra194-hda" = true <;>
  by_cases c2 : of_device_is_compatible p.np "nvidia,tegra23x-hda" = true <;>
  by_cases c7 : (hda.regs (HDA_BAR0 + AZX_REG_GCAP) % U16) >>> 8 &&& 15 = 0 <;>
  by_cases c8 : (hda.regs (HDA_BAR0 + AZX_REG_GCAP) % U16) >>> 12 &&& 15 = 0 <;>
  simp [c1, c2, c7, c8, readl, writel, azx_readw, hda_tegra.emit,
    gcap_ne_dbg_cfg, NUM_PLAYBACK_SD, NUM_CAPTURE_SD]

/-- The handle first_init_topology receives when the interrupt, the mapping and
the interrupt request have all succeeded. -/
theorem first_init_reaches_topology (p : platform) (hda : hda_tegra)
    (hirq : 0 ≤ p.irq_id) (hmap : 0 ≤ p.ioremap_err) (hreq : p.request_irq_err = 0) :
    ∃ mid : hda_tegra,
      hda_tegra_first_init p hda = first_init_codecs p (first_init_topology p mid) ∧
      mid.regs (HDA_BAR0 + AZX_REG_GCAP) = hda.regs (HDA_BAR0 + AZX_REG_GCAP) ∧
      mid.chip.running = hda.chip.running ∧
      continues_with (fun e => !e.is_probe_exit) hda mid := by
  have h1 : ¬ p.irq_id < 0 := by omega
  have h2 : ¬ p.ioremap_err < 0 := by omega
  let h0 : hda_tegra := (hda_tegra_init p { hda with
      regs_mapped := true
      chip := { hda.chip with bus := { hda.chip.bus with
        remap_addr := HDA_BAR0
        addr := p.res_start + HDA_BAR0 } } }).emit (Event.devm_request_irq p.irq_id)
  refine ⟨{ h0 with chip := { h0.chip with
      bus := { h0.chip.bus with irq := p.irq_id, dma_stop_delay := 100 }
      card := { h0.chip.card with sync_irq := p.irq_id } } }, ?_, ?_, ?_, ?_⟩
  · unfold hda_tegra_first_init hda_tegra_init_chip
    simp only [h1, h2, hreq, if_false, ne_eq, not_true_eq_false]
  · simp [h0, hda_tegra.emit, hda_tegra_init_regs_gcap]
  · simp [h0, hda_tegra.emit, hda_tegra_init_chip_eq]
  · refine ⟨hda_tegra_init_calls p hda.regs ++ [Event.devm_request_irq p.irq_id], ?_, ?_⟩
    · simp [h0, hda_tegra.emit, hda_tegra_init_trace]
    · unfold hda_tegra_init_calls
      by_cases h : p.chip_id = TEGRA194 ∨ p.chip_id = TEGRA234 <;>
      simp [h, Event.is_probe_exit]

theorem first_init_running (p : platform) (hda : hda_tegra) :
    (hda_tegra_first_init p hda).2.chip.running = hda.chip.running := by
  unfold hda_tegra_first_init hda_tegra_init_chip
  by_cases h1 : p.irq_id < 0
  · simp [h1]
  by_cases h2 : p.ioremap_err < 0
  · have h2n : ¬ p.ioremap_err = 0 := by omega
    simp [h1, h2, h2n]
  by_cases h3 : p.request_irq_err = 0 <;>
  simp [h1, h2, h3, hda_tegra.emit, (first_init_codecs_fields p _).2.2,
    first_init_topology_running, hda_tegra_init_chip_eq]

theorem first_init_quiet (p : platform) (hda : hda_tegra) :
    continues_with (fun e => !e.is_probe_exit) hda (hda_tegra_first_init p hda).2 := by
  by_cases h1 : p.irq_id < 0
  · unfold hda_tegra_first_init
    simp only [h1, if_true]
    exact continues_with_refl _ _
  by_cases h2 : p.ioremap_err < 0
  · unfold hda_tegra_first_init hda_tegra_init_chip
    have : p.ioremap_err ≠ 0 := by omega
    simp only [h1, h2, if_true, if_false, ne_eq, this, not_false_eq_true]
    exact continues_with_refl _ _
  by_cases h3 : p.request_irq_err = 0
  · obtain ⟨mid, he, -, -, hq⟩ :=
      first_init_reaches_topology p hda (by omega) (by omega) h3
    rw [he]
    exact continues_with_trans _ _ _ _ hq
      (continues_with_trans _ _ _ _ (first_init_topology_quiet p mid)
        (first_init_codecs_quiet p _))
  · unfold hda_tegra_first_init hda_tegra_init_chip
    simp only [h1, h2, h3, if_false, ne_eq, not_true_eq_false, not_false_eq_true, if_true]
    refine ⟨hda_tegra_init_calls p hda.regs ++
      [Event.devm_request_irq p.irq_id, Event.dev_err], ?_, ?_⟩
    · simp [hda_tegra.emit, hda_tegra_init_trace]
    · unfold hda_tegra_init_calls
      by_cases h : p.chip_id = TEGRA194 ∨ p.chip_id = TEGRA234 <;>
      simp [h, Event.is_probe_exit]

/-- C1. Whenever hda_tegra_first_init gets as far as reading the capability
register (interrupt found, region mapped, interrupt requested), then for every
register content cap (taken as a 16-bit word) and every device node the stream
counts it leaves in the chip are capture = (cap >> 8) & 0xF, or 4 on a node
compatible with nvidia,tegra23x-hda, and playback = (cap >> 12) & 0xF, replaced
by capture 1 and playback 1 exactly when both computed counts are zero.  On a
node that does not force the capture count, cap = 0x0A10 gives capture 10 and
playback 0, and cap = 0 gives capture 1 and playback 1. -/
theorem first_init_stream_counts (p : platform) (hda : hda_tegra)
    (hirq : 0 ≤ p.irq_id) (hmap : 0 ≤ p.ioremap_err) (hreq : p.request_irq_err = 0) :
    let cap := hda.regs (HDA_BAR0 + AZX_REG_GCAP) % U16
    let forced := of_device_is_compatible p.np "nvidia,tegra23x-hda"
    let capture := if forced then 4 else (cap >>> 8) &&& 0xF
    let playback := (cap >>> 12) &&& 0xF
    let chip := (hda_tegra_first_init p hda).2.chip
    (chip.capture_streams, chip.playback_streams) =
        (if capture = 0 ∧ playback = 0 then (1, 1) else (capture, playback)) ∧
    (if forced = false ∧ cap = 0x0A10 then
        chip.capture_streams = 10 ∧ chip.playback_streams = 0 else True) ∧
    (if forced = false ∧ cap = 0x0 then
        chip.capture_streams = 1 ∧ chip.playback_streams = 1 else True) := by
  intro cap forced capture playback chip
  have hchip : (chip.capture_streams, chip.playback_streams) =
      (if capture = 0 ∧ playback = 0 then (1, 1) else (capture, playback)) := by
    obtain ⟨mid, he, hg, -, -⟩ := first_init_reaches_topology p hda hirq hmap hreq
    have ht := first_init_topology_streams p mid
    simp only [hg] at ht
    simp only [chip, capture, playback, cap, forced]
    rw [← ht, he, (first_init_codecs_fields p _).1, (first_init_codecs_fields p _).2.1]
  refine ⟨hchip, ?_, ?_⟩
  · split
    · rename_i h
      have hc : capture = 10 := by
        simp only [capture]; rw [h.1, h.2]; decide
      have hp : playback = 0 := by
        simp only [playback]; rw [h.2]; decide
      rw [hc, hp] at hchip
      simpa using hchip
    · trivial
  · split
    · rename_i h
      have hc : capture = 0 := by
        simp only [capture]; rw [h.1, h.2]; decide
      have hp : playback = 0 := by
        simp only [playback]; rw [h.2]; decide
      rw [hc, hp] at hchip
      simpa using hchip
    · trivial

/-- Witness for C1: on the Tegra30 sample node, a capability register reading
0x0A10 gives 10 capture and 0 playback streams. -/
theorem first_init_stream_counts_witness :
    (0 : Int) ≤ sample_tegra30.irq_id ∧ (0 : Int) ≤ sample_tegra30.ioremap_err ∧
    sample_tegra30.request_irq_err = 0 ∧
    (hda_tegra_first_init sample_tegra30
      (handle_with_gcap sample_tegra30 0x0A10)).2.chip.capture_streams = 10 ∧
    (hda_tegra_first_init sample_tegra30
      (handle_with_gcap sample_tegra30 0x0A10)).2.chip.playback_streams = 0 := by
  have h := (first_init_stream_counts sample_tegra30 (handle_with_gcap sample_tegra30 0x0A10)
    (by decide) (by decide) (by decide)).2.1
  have hc : (of_device_is_compatible sample_tegra30.np "nvidia,tegra23x-hda" = false ∧
      (handle_with_gcap sample_tegra30 0x0A10).regs (HDA_BAR0 + AZX_REG_GCAP) % U16 = 0x0A10) :=
    by decide
  rw [if_pos hc] at h
  exact ⟨by decide, by decide, by decide, h.1, h.2⟩

/-! ## The deferred probe -/

theorem first_init_no_codec (p : platform) (hda : hda_tegra)
    (hirq : 0 ≤ p.irq_id) (hmap : 0 ≤ p.ioremap_err) (hreq : p.request_irq_err = 0)
    (hs : 0 ≤ p.init_streams_err) (ha : 0 ≤ p.alloc_stream_pages_err)
    (hm : p.codec_mask = 0) :
    (hda_tegra_first_init p hda).1 = -ENODEV ∧
    (hda_tegra_first_init p hda).2.chip.bus.codec_mask = 0 := by
  obtain ⟨mid, he, -, -, -⟩ := first_init_reaches_topology p hda hirq hmap hreq
  rw [he]
  exact first_init_codecs_no_codec p _ hs ha hm

theorem probe_work_first_init_fail (p : platform) (hda : hda_tegra)
    (h : (hda_tegra_first_init p (pm_runtime_get_sync hda)).1 < 0) :
    hda_tegra_probe_work p hda =
      schedule_delayed_work_jack
        (pm_runtime_put (hda_tegra_first_init p (pm_runtime_get_sync hda)).2) := by
  unfold hda_tegra_probe_work
  simp only [h, if_true]

theorem azx_probe_codecs_quiet (p : platform) (hda : hda_tegra) :
    continues_with (fun e => !e.is_probe_exit) hda (azx_probe_codecs p hda).2 := by
  unfold azx_probe_codecs continues_with
  by_cases c : p.probe_codecs_err < 0 <;>
  simp [c, hda_tegra.emit, Event.is_probe_exit]

/-- Every execution of the deferred probe ends at its exit label: whatever
handle the body leaves, the reference is released and then the jack poll is
scheduled, and no call of the body is one of those two. -/
theorem probe_work_shape (p : platform) (hda : hda_tegra) :
    ∃ last : hda_tegra,
      hda_tegra_probe_work p hda = schedule_delayed_work_jack (pm_runtime_put last) ∧
      continues_with (fun e => !e.is_probe_exit) (pm_runtime_get_sync hda) last := by
  have hq1 := first_init_quiet p (pm_runtime_get_sync hda)
  unfold hda_tegra_probe_work
  dsimp only
  generalize (hda_tegra_first_init p (pm_runtime_get_sync hda)).1 = err at *
  generalize (hda_tegra_first_init p (pm_runtime_get_sync hda)).2 = h1 at *
  by_cases c1 : err < 0
  · exact ⟨h1, by simp [c1], hq1⟩
  have hq2 := continues_with_trans _ _ _ _ hq1 (azx_probe_codecs_quiet p h1)
  generalize (azx_probe_codecs p h1).1 = err2 at *
  generalize (azx_probe_codecs p h1).2 = h2 at *
  by_cases c2 : err2 < 0
  · exact ⟨h2, by simp [c1, c2], hq2⟩
  have step : ∀ (a : hda_tegra) (e : Event), e.is_probe_exit = false →
      continues_with (fun e => !e.is_probe_exit) (pm_runtime_get_sync hda) a →
      continues_with (fun e => !e.is_probe_exit) (pm_runtime_get_sync hda) (a.emit e) := by
    intro a e he hqa
    exact continues_with_trans _ _ _ _ hqa ⟨[e], by simp [hda_tegra.emit], by simp [he]⟩
  have hq3 := step h2 Event.azx_codec_configure rfl hq2
  by_cases c3 : p.codec_configure_err < 0
  · exact ⟨_, by simp [c1, c2, c3], hq3⟩
  have hq4 := step _ Event.snd_card_register rfl hq3
  by_cases c4 : p.card_register_err < 0
  · exact ⟨_, by simp [c1, c2, c3, c4], hq4⟩
  have hq5 : continues_with (fun e => !e.is_probe_exit) (pm_runtime_get_sync hda)
      ({ (h2.emit Event.azx_codec_configure).emit Event.snd_card_register with
          chip := { ((h2.emit Event.azx_codec_configure).emit Event.snd_card_register).chip with
            running := true } }.emit (Event.snd_hda_set_power_save (p.power_save * 1000))) :=
    step _ _ rfl (continues_with_same_trace _ _ _ _ hq4 rfl)
  by_cases c5 : p.config_tegra_dc = true
  · have hq6 := step _ Event.hda_tegra_create_sysfs rfl hq5
    by_cases c6 : p.create_sysfs_err < 0
    · have hq7 := step _ Event.hda_tegra_remove_sysfs rfl (step _ Event.dev_err rfl hq6)
      exact ⟨_, by simp [c1, c2, c3, c4, c5, c6], hq7⟩
    · exact ⟨_, by simp [c1, c2, c3, c4, c5, c6], hq6⟩
  · exact ⟨_, by simp [c1, c2, c3, c4, c5], hq5⟩

theorem probe_work_trace (p : platform) (hda : hda_tegra) :
    ∃ mid : List Event,
      (hda_tegra_probe_work p hda).trace =
        hda.trace ++ Event.pm_runtime_get_sync :: mid ++
          [Event.pm_runtime_put, Event.schedule_delayed_work_jack JACKPOLL_INTERVAL] ∧
      mid.all (fun e => !e.is_probe_exit) = true := by
  obtain ⟨last, he, mid, hl, hq⟩ := probe_work_shape p hda
  refine ⟨mid, ?_, hq⟩
  rw [he]
  simp [schedule_delayed_work_jack, pm_runtime_put, hl, pm_runtime_get_sync]

theorem probe_work_pending (p : platform) (hda : hda_tegra) :
    (hda_tegra_probe_work p hda).jack_work_pending = true := by
  obtain ⟨last, he, -⟩ := probe_work_shape p hda
  rw [he]
  rfl

theorem jack_work_not_running (hda : hda_tegra) (h : hda.chip.running = false) :
    fire_jack_work hda = { hda with jack_work_pending := false } := by
  unfold fire_jack_work hda_tegra_jack_work
  simp [h]

/-- C2 (amended). In every execution of hda_tegra_probe_work that reaches the
codec detection with a zero codec mask, hda_tegra_first_init fails with
-ENODEV and the running flag is left as it was, so the handle does not become
Running.  The jack poll is nevertheless scheduled: the task ends, like every
execution, with the release of its power reference followed by
schedule_delayed_work on jack_work, and jack_work is pending afterwards.  When
the flag was false that firing returns at once: it makes no call and does not
reschedule itself. -/
theorem probe_work_no_codec (p : platform) (hda : hda_tegra)
    (hirq : 0 ≤ p.irq_id) (hmap : 0 ≤ p.ioremap_err) (hreq : p.request_irq_err = 0)
    (hs : 0 ≤ p.init_streams_err) (ha : 0 ≤ p.alloc_stream_pages_err)
    (hm : p.codec_mask = 0) :
    (hda_tegra_first_init p (pm_runtime_get_sync hda)).1 = -ENODEV ∧
    (hda_tegra_probe_work p hda).chip.running = hda.chip.running ∧
    (hda_tegra_probe_work p hda).jack_work_pending = true ∧
    (∃ mid : List Event,
      (hda_tegra_probe_work p hda).trace =
        hda.trace ++ Event.pm_runtime_get_sync :: mid ++
          [Event.pm_runtime_put, Event.schedule_delayed_work_jack JACKPOLL_INTERVAL] ∧
      mid.all (fun e => !e.is_probe_exit) = true) ∧
    (if hda.chip.running = false then
      fire_jack_work (hda_tegra_probe_work p hda) =
        { hda_tegra_probe_work p hda with jack_work_pending := false }
     else True) := by
  have hn := first_init_no_codec p (pm_runtime_get_sync hda) hirq hmap hreq hs ha hm
  have hlt : (hda_tegra_first_init p (pm_runtime_get_sync hda)).1 < 0 := by
    rw [hn.1]; decide
  have hrun : (hda_tegra_probe_work p hda).chip.running = hda.chip.running := by
    rw [probe_work_first_init_fail p hda hlt]
    simp [schedule_delayed_work_jack, pm_runtime_put, first_init_running, pm_runtime_get_sync]
  refine ⟨hn.1, hrun, probe_work_pending p hda, probe_work_trace p hda, ?_⟩
  split
  · rename_i hr
    exact jack_work_not_running _ (by rw [hrun, hr])
  · trivial

/-- Witness for C2: the sample platform with no codec on the link. -/
theorem probe_work_no_codec_witness :
    (0 : Int) ≤ sample_no_codec.irq_id ∧ sample_no_codec.codec_mask = 0 ∧
    (hda_tegra_probe_work sample_no_codec (probing_handle sample_no_codec)).chip.running =
      (probing_handle sample_no_codec).chip.running ∧
    (hda_tegra_probe_work sample_no_codec (probing_handle sample_no_codec)).jack_work_pending =
      true :=
  have h := probe_work_no_codec sample_no_codec (probing_handle sample_no_codec)
    (by decide) (by decide) (by decide) (by decide) (by decide) (by decide)
  ⟨by decide, by decide, h.2.1, h.2.2.1⟩

/-- Counterexample to C2 as stated: on the sample platform with no codec on
the link, probe succeeds, the deferred probe observes a zero codec mask and
fails with -ENODEV, the running flag stays false, and yet the jack poll has
been scheduled: jack_work is pending and the scheduling call is the last call
of the task. -/
theorem no_codec_probe_schedules_jack :
    (hda_tegra_probe sample_no_codec).1 = 0 ∧
    (hda_tegra_first_init sample_no_codec
      (pm_runtime_get_sync (probing_handle sample_no_codec))).2.chip.bus.codec_mask = 0 ∧
    (hda_tegra_first_init sample_no_codec
      (pm_runtime_get_sync (probing_handle sample_no_codec))).1 = -ENODEV ∧
    (fire_probe_work sample_no_codec (probing_handle sample_no_codec)).chip.running = false ∧
    (fire_probe_work sample_no_codec (probing_handle sample_no_codec)).jack_work_pending = true ∧
    (fire_probe_work sample_no_codec (probing_handle sample_no_codec)).trace.getLast? =
      some (Event.schedule_delayed_work_jack JACKPOLL_INTERVAL) := by
  decide

/-- C10 (amended). In every execution of hda_tegra_probe_work, successful or
not, the task first takes its power reference, and its last two calls are the
release of that reference and then the scheduling of the jack poll, in that
order; no earlier call of the task is either of the two.  The jack poll is
therefore scheduled after the reference is released, not before. -/
theorem probe_work_exit_order (p : platform) (hda : hda_tegra) :
    (∃ mid : List Event,
      calls_since hda (hda_tegra_probe_work p hda) =
        Event.pm_runtime_get_sync :: mid ++
          [Event.pm_runtime_put, Event.schedule_delayed_work_jack JACKPOLL_INTERVAL] ∧
      mid.all (fun e => !e.is_probe_exit) = true) ∧
    (hda_tegra_probe_work p hda).jack_work_pending = true := by
  refine ⟨?_, probe_work_pending p hda⟩
  obtain ⟨mid, ht, hq⟩ := probe_work_trace p hda
  refine ⟨mid, ?_, hq⟩
  unfold calls_since
  rw [ht, List.append_assoc, List.drop_left]

/-- Counterexample to C10 as stated: in the successful deferred probe of the
sample platform (the handle ends Running) the release of the power reference
comes before the only scheduling of the jack poll. -/
theorem probe_work_releases_before_scheduling :
    sample_running.chip.running = true ∧
    (calls_since (probing_handle sample_platform) sample_running).count
      (Event.schedule_delayed_work_jack JACKPOLL_INTERVAL) = 1 ∧
    (calls_since (probing_handle sample_platform) sample_running).indexOf
        Event.pm_runtime_put <
      (calls_since (probing_handle sample_platform) sample_running).indexOf
        (Event.schedule_delayed_work_jack JACKPOLL_INTERVAL) := by
  decide

/-! ## Removal and shutdown -/

theorem dev_free_fields (hda : hda_tegra) :
    (hda_tegra_dev_free hda).2.probe_work_pending = false ∧
    (hda_tegra_dev_free hda).2.jack_work_pending = false ∧
    (hda_tegra_dev_free hda).2.clocks = hda.clocks ∧
    (hda_tegra_dev_free hda).2.chip.running = hda.chip.running := by
  unfold hda_tegra_dev_free
  by_cases h : hda.chip.bus.chip_init <;>
  simp [h, cancel_work_sync_probe, cancel_delayed_work_sync_jack, azx_stop_chip,
    hda_tegra.emit]

theorem remove_fields (p : platform) (hda : hda_tegra) :
    (hda_tegra_remove p hda).2.probe_work_pending = false ∧
    (hda_tegra_remove p hda).2.jack_work_pending = false ∧
    (hda_tegra_remove p hda).2.clocks = hda.clocks ∧
    (hda_tegra_remove p hda).2.chip.running = hda.chip.running := by
  unfold hda_tegra_remove snd_card_free hda_tegra_dev_disconnect
  by_cases h : p.config_tegra_dc <;>
  simp [h, hda_tegra.emit, cancel_delayed_work_sync_jack, dev_free_fields]

/-- C3 (amended). From every handle state, so from every reachable lifecycle
state, remove() (hda_tegra_remove with the hda_tegra_dev_free destructor it
triggers) ends with neither the deferred probe task nor the jack-poll task
pending.  It makes no clock call: every clock of the ClockSet is left exactly
as it was before, so no clock is enabled afterwards precisely when none was
enabled before. -/
theorem remove_tasks_and_clocks (p : platform) (hda : hda_tegra) :
    (hda_tegra_remove p hda).2.probe_work_pending = false ∧
    (hda_tegra_remove p hda).2.jack_work_pending = false ∧
    clock_pattern (hda_tegra_remove p hda).2 = clock_pattern hda ∧
    (calls_since hda (hda_tegra_remove p hda).2).all
      (fun e => e ≠ Event.clk_bulk_disable_unprepare ∧ e ≠ Event.clk_bulk_prepare_enable)
      = true := by
  have hf := remove_fields p hda
  refine ⟨hf.1, hf.2.1, ?_, ?_⟩
  · unfold clock_pattern
    rw [hf.2.2.1]
  · unfold calls_since hda_tegra_remove snd_card_free hda_tegra_dev_disconnect
      hda_tegra_dev_free
    by_cases h : p.config_tegra_dc <;> by_cases hc : hda.chip.bus.chip_init <;>
    simp [h, hc, hda_tegra.emit, cancel_delayed_work_sync_jack, cancel_work_sync_probe,
      azx_stop_chip]

/-- Counterexample to C3 as stated: the Running handle of the sample platform
has both clocks enabled, and after remove() both clocks are still enabled
(while neither task is pending any more). -/
theorem remove_leaves_running_clocks_enabled :
    (hda_tegra_probe sample_platform).1 = 0 ∧
    sample_running.chip.running = true ∧
    clock_pattern sample_running = [true, true] ∧
    (hda_tegra_remove sample_platform sample_running).1 = 0 ∧
    clock_pattern (hda_tegra_remove sample_platform sample_running).2 = [true, true] ∧
    (hda_tegra_remove sample_platform sample_running).2.jack_work_pending = false ∧
    (hda_tegra_remove sample_platform sample_running).2.probe_work_pending = false := by
  decide

/-- C9 (amended). hda_tegra_shutdown on a device without a bound handle does
nothing.  On a bound handle its first call is the blocking cancel of the
jack-poll task, cancel_delayed_work_sync on jack_work, after which the task is
not pending; then it stops the chip exactly when the handle is running.  It
makes no other call: the deferred probe task is neither cancelled nor waited
for. -/
theorem shutdown_sequence (hda : hda_tegra) :
    (hda_tegra_shutdown none).isNone = true ∧
    (∃ out : hda_tegra,
      hda_tegra_shutdown (some hda) = some out ∧
      calls_since hda out =
        (if hda.chip.running then [Event.cancel_delayed_work_sync_jack, Event.azx_stop_chip]
         else [Event.cancel_delayed_work_sync_jack]) ∧
      out.jack_work_pending = false ∧
      out.probe_work_pending = hda.probe_work_pending ∧
      out.chip.running = hda.chip.running) := by
  refine ⟨rfl, ?_⟩
  unfold hda_tegra_shutdown calls_since
  by_cases h : hda.chip.running <;>
  simp [h, cancel_delayed_work_sync_jack, azx_stop_chip, hda_tegra.emit]

/-- Counterexample to C9 as stated: shutdown of the Running sample handle, on
which the jack poll is pending, performs the blocking cancel of the jack-poll
task before it stops the chip. -/
theorem shutdown_cancels_jack_work :
    sample_running.jack_work_pending = true ∧
    ((hda_tegra_shutdown (some sample_running)).map (calls_since sample_running)) =
      some [Event.cancel_delayed_work_sync_jack, Event.azx_stop_chip] ∧
    ((hda_tegra_shutdown (some sample_running)).map (fun h => h.jack_work_pending)) =
      some false := by
  decide

/-! ## The jack poll -/

theorem jack_poll_fold (codecs : List hda_codec) (hda : hda_tegra) :
    codecs.foldl jack_poll_codec hda =
      { hda with trace := hda.trace ++ jack_poll_calls codecs } := by
  induction codecs generalizing hda with
  | nil => simp [jack_poll_calls]
  | cons c cs ih =>
    rw [List.foldl_cons, ih]
    by_cases hc : c.power_on <;> simp [jack_poll_codec, jack_poll_calls, hc]

theorem jack_work_running (hda : hda_tegra) (h : hda.chip.running = true) :
    fire_jack_work hda =
      { hda with
        jack_work_pending := true
        trace := hda.trace ++ jack_poll_calls hda.chip.bus.codecs ++
          [Event.schedule_delayed_work_jack JACKPOLL_INTERVAL] } := by
  unfold fire_jack_work hda_tegra_jack_work
  simp [h, jack_poll_fold, schedule_delayed_work_jack]

/-- C4 (amended). A firing of hda_tegra_jack_work makes no call at all (no
codec power reference, no jack-sense poll, no rescheduling) exactly when the
hardware-running flag of the handle is false.  When the flag is true it takes
and drops a power reference on, and polls, every codec that reports not
powered, and then reschedules itself.  Neither the runtime-idle transition nor
remove() changes the flag, so a handle that was Running still polls when the
task fires after the transition to RuntimeSuspended. -/
theorem jack_work_gated_by_running_flag (p : platform) (hda : hda_tegra) :
    fire_jack_work hda =
      (if hda.chip.running then
        { hda with
          jack_work_pending := true
          trace := hda.trace ++ jack_poll_calls hda.chip.bus.codecs ++
            [Event.schedule_delayed_work_jack JACKPOLL_INTERVAL] }
       else { hda with jack_work_pending := false }) ∧
    (hda_tegra_runtime_suspend hda).2.chip.running = hda.chip.running ∧
    (hda_tegra_remove p hda).2.chip.running = hda.chip.running := by
  refine ⟨?_, (runtime_suspend_fields hda).1, (remove_fields p hda).2.2.2⟩
  by_cases h : hda.chip.running = true
  · rw [if_pos h]
    exact jack_work_running hda h
  · rw [if_neg h]
    exact jack_work_not_running hda (by simpa using h)

/-- Counterexample to C4 as stated: the Running sample handle makes the
runtime-idle transition, which disables both clocks; the jack-poll task then
fires and takes a power reference on the codec, polls its jack-sense pins and
reschedules itself. -/
theorem jack_work_polls_after_runtime_suspend :
    sample_running.chip.running = true ∧
    (hda_tegra_runtime_suspend sample_running).1 = 0 ∧
    clock_pattern sample_runtime_suspended = [false, false] ∧
    calls_since sample_runtime_suspended (fire_jack_work sample_runtime_suspended) =
      [Event.snd_hda_power_up_pm 0, Event.snd_hda_jack_set_dirty_all 0,
       Event.snd_hda_jack_poll_all 0, Event.snd_hda_power_down_pm 0,
       Event.schedule_delayed_work_jack JACKPOLL_INTERVAL] ∧
    (fire_jack_work sample_runtime_suspended).jack_work_pending = true := by
  decide

/-! ## System sleep -/

theorem hda_tegra_init_regs_eq (p : platform) (hda : hda_tegra) :
    (hda_tegra_init p hda).regs = hda_tegra_init_regs p hda.regs := by
  funext a
  unfold hda_tegra_init hda_tegra_init_regs
  by_cases h : p.chip_id = TEGRA194 ∨ p.chip_id = TEGRA234
  · simp only [h, readl, writel, hda_tegra.emit, if_true, and_true]
    simp only [HDA_IPFS_CONFIG, HDA_CFG_CMD, HDA_CFG_BAR0, HDA_IPFS_FPCI_BAR0,
      HDA_IPFS_INTR_MASK, HDA_GSC_REG]
    by_cases h3 : a = 4112 <;> simp [h3]
  · simp only [h, readl, writel, hda_tegra.emit, if_false, and_false]
    simp only [HDA_IPFS_CONFIG, HDA_CFG_CMD, HDA_CFG_BAR0, HDA_IPFS_FPCI_BAR0,
      HDA_IPFS_INTR_MASK, HDA_GSC_REG]
    by_cases h3 : a = 4112 <;> simp [h3]

/-- Setting bits in a 32-bit register that already has them set changes
nothing. -/
theorem set_bits_again (y m : Nat) :
    (((y ||| m) % U32) % U32 ||| m) % U32 = (y ||| m) % U32 := by
  apply Nat.eq_of_testBit_eq
  intro i
  simp only [U32, Nat.testBit_mod_two_pow, Nat.testBit_or]
  generalize y.testBit i = a
  generalize m.testBit i = b
  generalize decide (i < 32) = c
  cases a <;> cases b <;> cases c <;> rfl

/-- Clearing and setting bits in a 32-bit register that has already been
through the same clearing and setting changes nothing. -/
theorem clear_set_bits_again (y k m : Nat) :
    ((((y &&& k) ||| m) % U32) % U32 &&& k ||| m) % U32 = ((y &&& k) ||| m) % U32 := by
  apply Nat.eq_of_testBit_eq
  intro i
  simp only [U32, Nat.testBit_mod_two_pow, Nat.testBit_or, Nat.testBit_and]
  generalize y.testBit i = a
  generalize m.testBit i = b
  generalize k.testBit i = d
  generalize decide (i < 32) = c
  cases a <;> cases b <;> cases c <;> cases d <;> rfl

theorem hda_tegra_init_regs_idem (p : platform) (regs : Nat → Nat) :
    hda_tegra_init_regs p (hda_tegra_init_regs p regs) = hda_tegra_init_regs p regs := by
  have v5 : hda_tegra_init_regs p regs HDA_IPFS_INTR_MASK =
      (regs HDA_IPFS_INTR_MASK % U32 ||| HDA_IPFS_EN_INTR) % U32 := by
    simp [hda_tegra_init_regs, HDA_IPFS_INTR_MASK, HDA_GSC_REG]
  have v2 : hda_tegra_init_regs p regs HDA_CFG_CMD =
      ((regs HDA_CFG_CMD % U32 &&& (U32 - 1 - HDA_DISABLE_INTR)) |||
        (HDA_ENABLE_MEM_SPACE ||| HDA_ENABLE_IO_SPACE ||| HDA_ENABLE_BUS_MASTER |||
          HDA_ENABLE_SERR)) % U32 := by
    simp [hda_tegra_init_regs, HDA_IPFS_INTR_MASK, HDA_GSC_REG, HDA_CFG_CMD,
      HDA_IPFS_FPCI_BAR0, HDA_CFG_BAR0]
  have v1 : hda_tegra_init_regs p regs HDA_IPFS_CONFIG =
      (regs HDA_IPFS_CONFIG % U32 ||| HDA_IPFS_EN_FPCI) % U32 := by
    simp [hda_tegra_init_regs, HDA_IPFS_INTR_MASK, HDA_GSC_REG, HDA_CFG_CMD,
      HDA_IPFS_FPCI_BAR0, HDA_CFG_BAR0, HDA_IPFS_CONFIG]
  funext a
  have outer : hda_tegra_init_regs p (hda_tegra_init_regs p regs) a =
      (if a = HDA_GSC_REG ∧ (p.chip_id = TEGRA194 ∨ p.chip_id = TEGRA234) then
        HDA_GSC_ID % U32
      else if a = HDA_IPFS_INTR_MASK then
        (hda_tegra_init_regs p regs HDA_IPFS_INTR_MASK % U32 ||| HDA_IPFS_EN_INTR) % U32
      else if a = HDA_IPFS_FPCI_BAR0 then
        HDA_FPCI_BAR0_START % U32
      else if a = HDA_CFG_BAR0 then
        HDA_BAR0_FINAL_PROGRAM % U32
      else if a = HDA_CFG_CMD then
        ((hda_tegra_init_regs p regs HDA_CFG_CMD % U32 &&& (U32 - 1 - HDA_DISABLE_INTR)) |||
          (HDA_ENABLE_MEM_SPACE ||| HDA_ENABLE_IO_SPACE ||| HDA_ENABLE_BUS_MASTER |||
            HDA_ENABLE_SERR)) % U32
      else if a = HDA_IPFS_CONFIG then
        (hda_tegra_init_regs p regs HDA_IPFS_CONFIG % U32 ||| HDA_IPFS_EN_FPCI) % U32
      else
        hda_tegra_init_regs p regs a) := rfl
  rw [outer, v5, v2, v1, set_bits_again, set_bits_again, clear_set_bits_again]
  by_cases h6 : a = HDA_GSC_REG ∧ (p.chip_id = TEGRA194 ∨ p.chip_id = TEGRA234)
  · simp [hda_tegra_init_regs, h6]
  by_cases h5 : a = HDA_IPFS_INTR_MASK
  · simp [hda_tegra_init_regs, h6, h5]
  by_cases h4 : a = HDA_IPFS_FPCI_BAR0
  · simp [hda_tegra_init_regs, h6, h5, h4]
  by_cases h3 : a = HDA_CFG_BAR0
  · simp [hda_tegra_init_regs, h6, h5, h4, h3]
  by_cases h2 : a = HDA_CFG_CMD
  · simp [hda_tegra_init_regs, h6, h5, h4, h3, h2]
  by_cases h1 : a = HDA_IPFS_CONFIG
  · simp [hda_tegra_init_regs, h6, h5, h4, h3, h2, h1]
  · simp only [h6, h5, h4, h3, h2, h1, if_false]

/-- C11. The bring-up sequence hda_tegra_init is idempotent on the register
store: for every initial register contents and every chip id, running it
twice leaves exactly the register contents that running it once leaves, and
these are the closed form hda_tegra_init_regs of the initial contents. -/
theorem hda_tegra_init_idempotent (p : platform) (hda : hda_tegra) :
    (hda_tegra_init p (hda_tegra_init p hda)).regs = (hda_tegra_init p hda).regs ∧
    (hda_tegra_init p hda).regs = hda_tegra_init_regs p hda.regs := by
  refine ⟨?_, hda_tegra_init_regs_eq p hda⟩
  rw [hda_tegra_init_regs_eq, hda_tegra_init_regs_eq, hda_tegra_init_regs_idem]

/-! ## The clock array of probe -/

theorem probe_clock_array (p : platform) (hda : hda_tegra)
    (h : hda_tegra_probe p = (0, some hda)) :
    ∃ names : List String,
      p.np.clock_names = Except.ok names ∧
      hda.nclocks = names.length ∧
      hda.clocks.length = names.length ∧
      hda.clocks_alloc = names.length * SIZEOF_POINTER := by
  unfold hda_tegra_probe at h
  by_cases c0 : p.kzalloc_hda_fails = true
  · simp [c0] at h
  cases hn : p.np.clock_names with
  | error e => simp [c0, hn] at h
  | ok names =>
    refine ⟨names, rfl, ?_⟩
    by_cases c1 : p.kzalloc_clocks_fails = true
    · simp [c0, hn, c1] at h
    by_cases c2 : p.card_new_err < 0
    · simp [c0, hn, c1, c2] at h
    by_cases c3 : p.clk_bulk_get_err < 0
    · simp [c0, hn, c1, c2, c3] at h
    by_cases c4 : p.bus_init_err < 0
    · simp [c0, hn, c1, c2, c3, c4, hda_tegra_create] at h
    by_cases c5 : p.device_new_err < 0
    · simp [c0, hn, c1, c2, c3, c4, c5, hda_tegra_create] at h
    have hpm : ¬ ((AZX_DCAPS_CORBRP_SELF_CLEAR ||| AZX_DCAPS_PM_RUNTIME |||
        AZX_DCAPS_4K_BDLE_BOUNDARY) &&& AZX_DCAPS_PM_RUNTIME = 0) := by decide
    simp [c0, hn, c1, c2, c3, c4, c5, hda_tegra_create, hda_tegra.emit,
      schedule_work_probe, hda_tegra_zeroed, azx_has_pm_runtime, hpm] at h
    subst h
    simp

/-- Whatever the clock names, the request of probe for the clock array is
short by half: it asks for one pointer per clock where an entry takes two. -/
theorem probe_clock_array_short (p : platform) (hda : hda_tegra)
    (h : hda_tegra_probe p = (0, some hda)) :
    2 * hda.clocks_alloc = hda.nclocks * SIZEOF_CLK_BULK_DATA := by
  obtain ⟨names, -, hn, -, ha⟩ := probe_clock_array p hda h
  rw [ha, hn]
  unfold SIZEOF_CLK_BULK_DATA
  ring

/-- C12 (the code at the failing input). Probe of the sample platform, whose
node names two clocks, succeeds and requests 16 bytes for the clock array,
while two entries of struct clk_bulk_data take 32 bytes; the store of the
second clock name, clocks[1].id, ends at byte 24 of the array, past the 16
bytes requested. -/
theorem probe_clock_array_too_small :
    sample_platform.np.clock_names = Except.ok ["hda", "hda2hdmi"] ∧
    (hda_tegra_probe sample_platform).1 = 0 ∧
    (bound_handle sample_platform).nclocks = 2 ∧
    (bound_handle sample_platform).clocks.map (fun c => c.id) = ["hda", "hda2hdmi"] ∧
    (bound_handle sample_platform).clocks_alloc = 16 ∧
    (bound_handle sample_platform).nclocks * SIZEOF_CLK_BULK_DATA = 32 ∧
    clk_id_store_end 1 = 24 ∧
    (bound_handle sample_platform).clocks_alloc < clk_id_store_end 1 ∧
    (bound_handle sample_platform).clocks_alloc <
      (bound_handle sample_platform).nclocks * SIZEOF_CLK_BULK_DATA := by
  refine ⟨rfl, ?_, ?_, ?_, ?_, ?_, ?_, ?_, ?_⟩ <;> decide

end HdaTegra
